import Mathlib

/-!
Verification of the deployment-orchestration core of the marketplace backend.

The Python sources are shallowly embedded as executable Lean definitions:
- `src/backend/app/models/app.py` : enums and the subject record fields touched here
- `src/backend/app/services/deployment_service.py` : submitter + packager
- `src/backend/app/services/framework_detector.py` : classifier
- `src/backend/app/services/verification_service.py` : verifier
- `src/backend/app/api/api_v1/endpoints/deployments.py` : orchestrator background task

Python strings are modelled as `List Char`; machine effects (filesystem reads,
UTF-8 decoding, base64 encoding, JSON validity, HTTP calls, database sessions)
are passed in as explicit oracles/outcomes so that every control path in the
source becomes a provable case of a total function.
-/

set_option maxRecDepth 100000

namespace MarketPlace

/-- Python strings, modelled as character lists. -/
abbrev Str := List Char

/-- Coerce a Lean string literal into the model type. -/
def str (s : String) : Str := s.data

/-! ## Enums (src/backend/app/models/app.py) -/

/-- `AppStatus` enum (models/app.py lines 7-12). -/
inductive AppStatus where
  | draft
  | deploying
  | deployed
  | published
  | failed
deriving DecidableEq, Repr

/-- `FrameworkType` enum (models/app.py lines 14-18). -/
inductive FrameworkType where
  | react
  | node
  | python
  | unknown
deriving DecidableEq, Repr

/-! ## Log channel (src/backend/app/services/deployment_logger.py)

A log entry is `(timestamp, level, message)`; the timestamp is wall-clock
environment data and is omitted.  Message texts are abstracted to one
constructor per `add_log` call site of the embedded functions, with the
data interpolated into the f-string carried as constructor arguments. -/

/-- Severity levels used by `DeploymentLogger.add_log`. -/
inductive Severity where
  | info
  | success
  | warning
  | error
deriving DecidableEq, Repr

/-- Log-site tags of `DeploymentService.deploy_to_vercel`. -/
inductive SubmitMsg where
  | tokenMissing
  | tokenConfigured
  | detectingFramework
  | detectionComplete
  | detectedLine (fw : FrameworkType)
  | confidenceLine (conf : Nat)
  | frameworkLine (fw : Str)
  | deploymentTypeLine (dt : Str)
  | updatedFramework (fw : FrameworkType)
  | preparingFiles
  | noFilesFound
  | preparedFiles (n : Nat)
  | creatingDeployConfig
  | configuringFor (fw : Str) (dt : Str)
  | configuringVite
  | configuringCra
  | configuringStatic
  | configuringNextjs
  | configuringNodeServer
  | configuringPythonApp
  | startingDeployment
  | uploadingFiles (n : Nat)
  | apiResponse (status : Nat)
  | deploymentSuccessful
  | liveUrl (u : Str)
  | deploymentId
  | frameworkSummary
  | nowLive
  | noUrlReturned
  | responseBody
  | vercelDeployFailed (status : Nat)
  | errorDetails
  | specificError (msg : Str)
  | vercelDeploymentError
deriving DecidableEq, Repr

/-- Log-site tags of `DeploymentService._prepare_files_for_vercel`. -/
inductive PackMsg where
  | sourcePathMissing
  | extractingZip
  | zipExtracted
  | scanningDirectory
  | skipVercelJson (path : Str)
  | skipLargeFile (path : Str) (size : Nat)
  | skipUnreadableFile (path : Str)
  | validJson (path : Str)
  | invalidJson (path : Str)
  | creatingIndexHtml
  | addedIndexHtml
  | creatingPackageJson
  | addedPackageJson
  | preparedCount (n : Nat)
  | fileListHeader
  | fileItem (path : Str)
  | moreFiles (n : Nat)
  | errorPreparingFiles
deriving DecidableEq, Repr

/-- Log-site tags of `VerificationService.verify_app`. -/
inductive VerifyMsg where
  | noProductionUrl
  | verifyingApp
  | responseStatus (s : Nat)
  | got401
  | authPageDetected
  | stillProcessingHint
  | waitingThirty
  | retryStatus (s : Nat)
  | retrySuccess (s : Nat)
  | still401
  | needsIndexHint
  | retryDifferentStatus (s : Nat)
  | lenient401
  | verifySuccess (s : Nat)
  | tryingPath (p : Str)
  | pathVerified (p : Str) (s : Nat)
  | pathFailed (p : Str)
  | verifyFailedStatus (s : Nat)
  | responsePreview
  | lenient4xx (s : Nat)
  | verifyTimeout
  | verifyException
deriving DecidableEq, Repr

/-- Log-site tags of the `deploy_background` orchestrator task. -/
inductive OrchMsg where
  | preparingVercelDeployment
  | vercelConfigPrepared
  | creatingWorkflow
  | workflowCreated
  | workflowFailed
  | vercelApiError
  | startingVerification
  | verifiedAndPublished
  | deployedButFailedVerification
  | verificationErrorWarn
  | vercelDeploymentFailedLog
  | databaseError
  | deploymentError
deriving DecidableEq, Repr

/-- A log-site tag from any of the embedded components. -/
inductive LogMsg where
  | submit (m : SubmitMsg)
  | pack (m : PackMsg)
  | verify (m : VerifyMsg)
  | orch (m : OrchMsg)
deriving DecidableEq, Repr

/-- A recorded log entry (timestamp omitted; see `DeploymentLogger.add_log`). -/
structure LogEntry where
  level : Severity
  msg : LogMsg
deriving DecidableEq, Repr

/-! ## Submitter name sanitization (deployment_service.py lines 59-64) -/

/-- Python `str.lower` restricted to the ASCII inputs exercised here. -/
def lowerStr (s : Str) : Str := s.map Char.toLower

/-- Python `str.strip('-')`: drop the separator from both ends. -/
def stripDashes (s : Str) : Str :=
  ((s.dropWhile fun c => c = '-').reverse.dropWhile fun c => c = '-').reverse

/-- deployment_service.py lines 59-61:
`sanitized_name = app.name.lower()`;
`sanitized_name = ''.join(c if c.isalnum() else '-' for c in sanitized_name)`;
`sanitized_name = sanitized_name.strip('-')[:50]`.
Each non-alphanumeric character is replaced by `-` individually. -/
def sanitizeAppName (name : Str) : Str :=
  let lowered := lowerStr name
  let replaced := lowered.map fun c => if c.isAlphanum then c else '-'
  (stripDashes replaced).take 50

/-- deployment_service.py lines 63-67: fall back to `"saas-app"` on an empty
sanitization result, then build `f"app-\x7bapp.id\x7d-\x7bsanitized_name\x7d"`. -/
def vercelProjectName (appId : Nat) (name : Str) : Str :=
  let s := sanitizeAppName name
  let s := if s = [] then str "saas-app" else s
  str "app-" ++ (toString appId).data ++ str "-" ++ s

/-- Collapse every nonempty run of `-` into a single `-`. -/
def collapseDashes : Str → Str
  | [] => []
  | '-' :: rest =>
    match collapseDashes rest with
    | '-' :: tail => '-' :: tail
    | other => '-' :: other
  | c :: rest => c :: collapseDashes rest

/-- The sanitizer as the spec sentence words it ("non-alphanumeric characters
collapsed to a single separator, trimmed, length-capped at 50"): written for
comparison with `sanitizeAppName`, which is the one taken from the source. -/
def sanitizeSpecCollapsed (name : Str) : Str :=
  let lowered := lowerStr name
  let replaced := lowered.map fun c => if c.isAlphanum then c else '-'
  (stripDashes (collapseDashes replaced)).take 50

example : sanitizeAppName (str "My  App") = str "my--app" := by decide
example : sanitizeSpecCollapsed (str "My  App") = str "my-app" := by decide
example : sanitizeAppName (str "--x--") = str "x" := by decide
example : vercelProjectName 7 (str "!!!") = str "app-7-saas-app" := by decide

/-! ## Deployment packager (deployment_service.py lines 198-396)

`_prepare_files_for_vercel` walks the (already extracted) source tree and
turns each surviving file into a wire entry.  The walk result is modelled as
a list of `WalkFile` records in traversal order; byte-level environment
operations are supplied through a `Codec`. -/

/-- Outcomes of the byte-level environment operations used by the packager:
`bytes.decode('utf-8')` (None = `UnicodeDecodeError`), `base64.b64encode`,
and `json.loads` validation (False = `JSONDecodeError`). -/
structure Codec where
  utf8Decode : List Nat → Option Str
  b64Encode : List Nat → Str
  jsonValid : Str → Bool

/-- One file yielded by `os.walk` (after the directory pruning of line 229):
its path relative to the source root, its basename, whether
`os.path.getsize` succeeded and its result, and the raw bytes read from it
(`none` = the open/read raised). -/
structure WalkFile where
  relPath : Str
  filename : Str
  sizeOk : Bool
  size : Nat
  content : Option (List Nat)
deriving DecidableEq, Repr

/-- One wire entry appended to `files`: lines 280-300.  `isBase64` records
whether the `"encoding": "base64"` key is present. -/
structure PackedFile where
  file : Str
  data : Str
  isBase64 : Bool
deriving DecidableEq, Repr

/-- Build a packager log entry. -/
def plog (sev : Severity) (m : PackMsg) : LogEntry := ⟨sev, LogMsg.pack m⟩

/-- `filename.startswith('.')` (line 236). -/
def startsWithDot : Str → Bool
  | '.' :: _ => true
  | _ => false

/-- The `text_extensions` set of line 262. -/
def textExtensions : List Str :=
  [str ".json", str ".js", str ".ts", str ".jsx", str ".tsx", str ".html",
   str ".htm", str ".css", str ".scss", str ".sass", str ".less", str ".md",
   str ".txt", str ".xml", str ".svg", str ".yml", str ".yaml", str ".toml",
   str ".ini", str ".cfg", str ".conf"]

/-- `os.path.splitext(filename)[1].lower()` (line 263): the extension from
the last dot of the basename, ignoring any leading run of dots. -/
def extnameLower (filename : Str) : Str :=
  let lead := filename.takeWhile fun c => c = '.'
  let rest := filename.drop lead.length
  let revTail := rest.reverse.takeWhile fun c => c ≠ '.'
  if revTail.length < rest.length then lowerStr ('.' :: revTail.reverse) else []

/-- `relative_path.replace('\\', '/')` (line 259). -/
def vercelPath (relPath : Str) : Str :=
  relPath.map fun c => if c = '\\' then '/' else c

/-- The 10 MiB ceiling of line 247. -/
def maxFileSize : Nat := 10 * 1024 * 1024

/-- One iteration of the packaging loop, lines 231-304: the optional wire
entry produced for this file and the log entries emitted while handling it. -/
def packOne (codec : Codec) (f : WalkFile) : Option PackedFile × List LogEntry :=
  if startsWithDot f.filename &&
      !(f.filename == str ".env.example" || f.filename == str ".gitignore") then
    (none, [])
  else if lowerStr f.filename == str "vercel.json" then
    (none, [plog .warning (.skipVercelJson f.relPath)])
  else if !f.sizeOk then
    (none, [])
  else if f.size > maxFileSize then
    (none, [plog .warning (.skipLargeFile f.relPath f.size)])
  else
    match f.content with
    | none => (none, [plog .warning (.skipUnreadableFile f.relPath)])
    | some bytes =>
      let vp := vercelPath f.relPath
      if textExtensions.contains (extnameLower f.filename) then
        match codec.utf8Decode bytes with
        | some text =>
          if (str ".json").isSuffixOf f.filename then
            if codec.jsonValid text then
              (some ⟨vp, text, false⟩, [plog .success (.validJson vp)])
            else
              (none, [plog .error (.invalidJson vp)])
          else
            (some ⟨vp, text, false⟩, [])
        | none => (some ⟨vp, codec.b64Encode bytes, true⟩, [])
      else
        (some ⟨vp, codec.b64Encode bytes, true⟩, [])

/-- The full packaging loop over the walk, in traversal order. -/
def packWalk (codec : Codec) : List WalkFile → List PackedFile × List LogEntry
  | [] => ([], [])
  | f :: rest =>
    let fst := packOne codec f
    let tail := packWalk codec rest
    (fst.1.toList ++ tail.1, fst.2 ++ tail.2)

/-- The synthesized landing page of lines 314-350 (`default_html`). -/
def defaultIndexHtml : Str := str
"<!DOCTYPE html>\n<html lang=\"en\">\n<head>\n    <meta charset=\"UTF-8\">\n    <meta name=\"viewport\" content=\"width=device-width, initial-scale=1.0\">\n    <title>SaaS App</title>\n    <style>\n        body \x7b \n            font-family: -apple-system, BlinkMacSystemFont, 'Segoe UI', Roboto, sans-serif; \n            text-align: center; \n            padding: 50px; \n            background: linear-gradient(135deg, #667eea 0%, #764ba2 100%);\n            min-height: 100vh;\n            margin: 0;\n            display: flex;\n            align-items: center;\n            justify-content: center;\n        \x7d\n        .container \x7b \n            background: white;\n            padding: 2rem;\n            border-radius: 1rem;\n            box-shadow: 0 20px 40px rgba(0,0,0,0.1);\n            max-width: 600px; \n        \x7d\n        h1 \x7b color: #333; \x7d\n        p \x7b color: #666; line-height: 1.6; \x7d\n    </style>\n</head>\n<body>\n    <div class=\"container\">\n        <h1>🚀 SaaS Application</h1>\n        <p>Your application has been successfully deployed!</p>\n        <p>This is a default page. Upload your own index.html to customize.</p>\n    </div>\n</body>\n</html>"

/-- The synthesized minimal manifest of lines 361-373
(`json.dumps(default_package_json, indent=2, ensure_ascii=False)`). -/
def defaultPackageJsonContent (appId : Nat) : Str :=
  str "\x7b\n  \"name\": \"app-" ++ (toString appId).data ++
  str "\",\n  \"version\": \"1.0.0\",\n  \"private\": true,\n  \"scripts\": \x7b\n    \"build\": \"echo 'Static build complete'\",\n    \"start\": \"echo 'Static site ready'\"\n  \x7d,\n  \"dependencies\": \x7b\x7d,\n  \"devDependencies\": \x7b\x7d\n\x7d"

/-- `_prepare_files_for_vercel` after the source tree was resolved to a
directory: the walk (lines 224-304), the `index.html` synthesis (lines
306-356), the `package.json` synthesis for React subjects (lines 358-379),
the summary logging (lines 381-388) and the final `files if files else None`
(line 390). -/
def prepareFilesForVercel (codec : Codec) (appId : Nat) (framework : FrameworkType)
    (walk : List WalkFile) : Option (List PackedFile) × List LogEntry :=
  let walked := packWalk codec walk
  let files0 := walked.1
  let logs0 := plog .info .scanningDirectory :: walked.2
  let hasIndex := files0.any fun e =>
    e.file == str "index.html" || e.file == str "index.htm"
  let hasPackageJson := files0.any fun e => e.file == str "package.json"
  let files1 := if !hasIndex
    then files0 ++ [⟨str "index.html", defaultIndexHtml, false⟩] else files0
  let logs1 := if !hasIndex
    then logs0 ++ [plog .info .creatingIndexHtml, plog .success .addedIndexHtml]
    else logs0
  let synthPkg := !hasPackageJson && framework == FrameworkType.react
  let files2 := if synthPkg
    then files1 ++ [⟨str "package.json", defaultPackageJsonContent appId, false⟩]
    else files1
  let logs2 := if synthPkg
    then logs1 ++ [plog .info .creatingPackageJson, plog .success .addedPackageJson]
    else logs1
  let logs3 := logs2 ++ [plog .success (.preparedCount files2.length),
      plog .info .fileListHeader] ++
    ((files2.take 3).map fun e => plog .info (.fileItem e.file)) ++
    (if files2.length > 3 then [plog .info (.moreFiles (files2.length - 3))] else [])
  (if files2.isEmpty then none else some files2, logs3)

/-- A concrete codec for tests: bytes are character codes, UTF-8 decoding
always succeeds, base64 is left abstract as a marker, JSON is valid unless
the text starts with `!`. -/
def testCodec : Codec where
  utf8Decode := fun bs => some (bs.map Char.ofNat)
  b64Encode := fun bs => 'B' :: bs.map Char.ofNat
  jsonValid := fun s => !(s.take 1 == str "!")

example :
    (packOne testCodec ⟨str "big.bin", str "big.bin", true, 10485761, some []⟩).1
      = none := by decide
example :
    (packOne testCodec ⟨str "a.txt", str "a.txt", true, 3, some [104, 105]⟩).1
      = some ⟨str "a.txt", str "hi", false⟩ := by decide
example :
    (prepareFilesForVercel testCodec 3 FrameworkType.node []).1
      = some [⟨str "index.html", defaultIndexHtml, false⟩] := by decide

/-! ## Framework classifier (framework_detector.py)

`detect_framework` walks the extracted source tree.  The tree is modelled as
the list of files the walk yields, in walk order; each file carries the
outcome of opening it as a JSON package manifest (`none` = read/parse
raised) and, for the Python analysis, the lowercased text read from it
(`none` = read raised). -/

/-- A parsed `package.json` manifest: the three maps the classifier reads
(lines 83-85), as insertion-ordered association lists. -/
structure Manifest where
  dependencies : List (Str × Str)
  devDependencies : List (Str × Str)
  scripts : List (Str × Str)
deriving DecidableEq, Repr

/-- Python `dict.get` on an association list. -/
def dictGet (m : List (Str × Str)) (k : Str) : Option Str :=
  (m.find? fun p => p.1 == k).map fun p => p.2

/-- Python `\x7b**a, **b\x7d`: keys of `a` in order with values overridden by
`b`, then the keys of `b` not already present (line 86). -/
def dictMerge (a b : List (Str × Str)) : List (Str × Str) :=
  (a.map fun p => (p.1, (dictGet b p.1).getD p.2)) ++
    b.filter fun p => (dictGet a p.1).isNone

/-- One file of the extracted tree, in `os.walk` order. -/
structure FsEntry where
  name : Str
  manifest : Option Manifest
  contentLower : Option Str
deriving DecidableEq, Repr

/-- The walked source tree.  `requirementsLower` is the top-level
`requirements.txt`: `none` = the file does not exist, `some none` = reading
it raised, `some (some s)` = its lowercased text (lines 215-219). -/
structure DirTree where
  files : List FsEntry
  requirementsLower : Option (Option Str)
deriving DecidableEq, Repr

/-- The `config_details` dictionary returned by the classifier: one optional
field per key that any branch of framework_detector.py puts in it. -/
structure DetectConfig where
  reason : Str
  confidence : Nat
  framework : Option Str
  version : Option Str
  deploymentType : Option Str
  buildCommand : Option Str
  outputDir : Option Str
  filesCount : Option Nat
  detectedFrameworks : Option (List (Str × Nat))
deriving DecidableEq, Repr

/-- A `config_details` value holding only `reason` and `confidence`. -/
def cfgBare (reason : Str) (confidence : Nat) : DetectConfig :=
  ⟨reason, confidence, none, none, none, none, none, none, none⟩

/-- `_analyze_package_json` (lines 76-198) applied to the outcome of
opening and parsing the manifest (`none` = lines 190-191 exception path). -/
def analyzePackageJson (parsed : Option Manifest) : FrameworkType × DetectConfig :=
  match parsed with
  | none =>
    (.react, ⟨str "package_json_fallback", 50, none, none, some (str "static"),
      none, none, none, none⟩)
  | some m =>
    let allDeps := dictMerge m.dependencies m.devDependencies
    if (dictGet allDeps (str "next")).isSome then
      (.node, ⟨str "nextjs_detected", 95, some (str "nextjs"),
        some ((dictGet allDeps (str "next")).getD (str "unknown")),
        some (str "nextjs"), none, none, none, none⟩)
    else if (dictGet allDeps (str "react")).isSome then
      if (dictGet allDeps (str "react-scripts")).isSome then
        (.react, ⟨str "create_react_app", 90, some (str "create-react-app"),
          none, some (str "static"), some (str "npm run build"),
          some (str "build"), none, none⟩)
      else if (dictGet allDeps (str "vite")).isSome ||
          (dictGet allDeps (str "@vitejs/plugin-react")).isSome then
        (.react, ⟨str "vite_react", 90, some (str "vite"), none,
          some (str "static"), some (str "vite build"), some (str "dist"),
          none, none⟩)
      else
        (.react, ⟨str "react_generic", 80, some (str "react"), none,
          some (str "static"),
          some ((dictGet m.scripts (str "build")).getD (str "npm run build")),
          some (str "build"), none, none⟩)
    else if (dictGet allDeps (str "vue")).isSome then
      (.node, ⟨str "vue_detected", 85, some (str "vue"), none,
        some (str "static"), none, none, none, none⟩)
    else if (dictGet allDeps (str "vite")).isSome then
      (.react, ⟨str "vite_detected", 85, some (str "vite"), none,
        some (str "static"), some (str "vite build"), some (str "dist"),
        none, none⟩)
    else if (dictGet allDeps (str "@angular/core")).isSome then
      (.node, ⟨str "angular_detected", 85, some (str "angular"), none,
        some (str "static"), none, none, none, none⟩)
    else if (dictGet allDeps (str "express")).isSome ||
        (dictGet allDeps (str "fastify")).isSome ||
        (dictGet allDeps (str "koa")).isSome then
      (.node, ⟨str "node_server", 85, some (str "nodejs"), none,
        some (str "server"), none, none, none, none⟩)
    else if (dictGet allDeps (str "gatsby")).isSome then
      (.node, ⟨str "gatsby_detected", 90, some (str "gatsby"), none,
        some (str "static"), none, none, none, none⟩)
    else if !allDeps.isEmpty then
      (.node, ⟨str "nodejs_generic", 60, some (str "nodejs"), none,
        some (str "static"), none, none, none, none⟩)
    else
      (.react, ⟨str "package_json_fallback", 50, none, none, some (str "static"),
        none, none, none, none⟩)

/-- The `framework_indicators` table of lines 204-210. -/
def frameworkIndicators : List (Str × List Str) :=
  [(str "django", [str "django", str "manage.py", str "settings.py"]),
   (str "flask", [str "flask", str "app.py", str "application.py"]),
   (str "fastapi", [str "fastapi", str "main.py", str "uvicorn"]),
   (str "streamlit", [str "streamlit", str "st."]),
   (str "dash", [str "dash", str "plotly"])]

/-- Python `needle in haystack` on strings. -/
def subStrIn (needle : Str) : Str → Bool
  | [] => needle.isEmpty
  | c :: rest => needle.isPrefixOf (c :: rest) || subStrIn needle rest

/-- `detected_frameworks[k] = detected_frameworks.get(k, 0) + 1`, keeping
dict insertion order. -/
def bumpCount (d : List (Str × Nat)) (k : Str) : List (Str × Nat) :=
  if (d.find? fun p => p.1 == k).isSome then
    d.map fun p => if p.1 == k then (p.1, p.2 + 1) else p
  else
    d ++ [(k, 1)]

/-- One scoring pass of lines 221-224 / 234-237 over one text. -/
def scoreText (d : List (Str × Nat)) (text : Str) : List (Str × Nat) :=
  frameworkIndicators.foldl
    (fun acc p => p.2.foldl
      (fun acc2 ind => if subStrIn ind text then bumpCount acc2 p.1 else acc2)
      acc)
    d

/-- `max(detected_frameworks, key=detected_frameworks.get)` (line 243):
first key of maximal count in insertion order. -/
def maxByCount : List (Str × Nat) → Option (Str × Nat)
  | [] => none
  | p :: rest => some (rest.foldl (fun best q => if q.2 > best.2 then q else best) p)

/-- `_analyze_python_project` (lines 201-260). -/
def analyzePythonProject (pythonFiles : List FsEntry)
    (requirementsLower : Option (Option Str)) : FrameworkType × DetectConfig :=
  let d1 := match requirementsLower with
    | some (some r) => scoreText [] r
    | _ => []
  let d2 := (pythonFiles.take 5).foldl
    (fun acc e => match e.contentLower with
      | some c => scoreText acc c
      | none => acc)
    d1
  match maxByCount d2 with
  | some best =>
    (.python, ⟨best.1 ++ str "_detected", min 90 (best.2 * 20), some best.1,
      none, some (str "server"), none, none, none, some d2⟩)
  | none =>
    (.python, ⟨str "python_generic", 70, some (str "python"), none,
      some (str "server"), none, none, none, none⟩)

/-- `detect_framework` (lines 11-73) for an existing, already extracted
source directory: first manifest in walk order wins, else the Python
analysis, else the HTML count, else the low-trust default. -/
def detectFramework (tree : DirTree) : FrameworkType × DetectConfig :=
  match tree.files.find? fun e => e.name == str "package.json" with
  | some e => analyzePackageJson e.manifest
  | none =>
    let pythonFiles := tree.files.filter fun e => (str ".py").isSuffixOf e.name
    if !pythonFiles.isEmpty then
      analyzePythonProject pythonFiles tree.requirementsLower
    else
      let htmlFiles := tree.files.filter fun e =>
        (str ".html").isSuffixOf e.name || (str ".htm").isSuffixOf e.name
      if !htmlFiles.isEmpty then
        (.react, ⟨str "static_html", 70, none, none, some (str "static"),
          none, none, some htmlFiles.length, none⟩)
      else
        (.react, cfgBare (str "default_fallback") 30)

example :
    detectFramework ⟨[⟨str "index.html", none, none⟩], none⟩
      = (.react, ⟨str "static_html", 70, none, none, some (str "static"),
          none, none, some 1, none⟩) := by decide

/-! ## Verifier (verification_service.py, verify_app lines 10-121)

Each `client.get` is an effect; its outcome is supplied by a `VerifyEnv`.
`httpx.TimeoutException` is a subclass of `Exception`, so inside the
fallback-path loop a timeout is caught by the loop's own handler (line 98),
while outside the loop it reaches the handler of line 116. -/

/-- Outcome of one HTTP GET: a response with its status code, whether the
body contains an authentication-wall marker (line 44) and whether the body
is shorter than 500 characters (line 106); or a raised
`httpx.TimeoutException`; or any other raised exception. -/
inductive HttpOutcome where
  | ok (status : Nat) (authText : Bool) (shortBody : Bool)
  | timeout
  | exn
deriving DecidableEq, Repr

/-- Outcomes of the verifier's HTTP requests: the initial GET (line 27),
the retry GET after the 401 authentication-wall wait (line 52), and the
fallback-path probes (line 87) positionally aligned with `common_paths`. -/
structure VerifyEnv where
  first : HttpOutcome
  retry : HttpOutcome
  probes : List HttpOutcome
deriving DecidableEq, Repr

/-- What `verify_app` produced: its boolean return value, its log entries,
and the number of HTTP requests it attempted. -/
structure VerifyResult where
  verified : Bool
  logs : List LogEntry
  calls : Nat
deriving DecidableEq, Repr

/-- Build a verifier log entry. -/
def vlog (sev : Severity) (m : VerifyMsg) : LogEntry := ⟨sev, LogMsg.verify m⟩

/-- The `common_paths` list of line 80. -/
def commonPaths : List Str :=
  [str "/index.html", str "/health", str "/status", str "/ping"]

/-- `app.production_url.rstrip("/")` (line 20). -/
def rstripSlash (s : Str) : Str :=
  (s.reverse.dropWhile fun c => c = '/').reverse

/-- The fallback-path loop of lines 82-100: returns whether some probe
verified, the log entries, and the number of probes attempted.  A probe
that raises (timeout included) is caught at line 98 and the loop continues. -/
def runProbes : List (Str × HttpOutcome) → Bool × List LogEntry × Nat
  | [] => (false, [], 0)
  | (p, o) :: rest =>
    match o with
    | .ok s _ _ =>
      if 200 ≤ s ∧ s < 300 then
        (true, [vlog .info (.tryingPath p), vlog .success (.pathVerified p s)], 1)
      else
        let tail := runProbes rest
        (tail.1, vlog .info (.tryingPath p) :: tail.2.1, tail.2.2 + 1)
    | _ =>
      let tail := runProbes rest
      (tail.1, vlog .info (.tryingPath p) :: vlog .warning (.pathFailed p) :: tail.2.1,
        tail.2.2 + 1)

/-- `VerificationService.verify_app`.  The subject is reduced to its
`production_url`; everything after the URL check is driven by `env`. -/
def verifyApp (env : VerifyEnv) (productionUrl : Option Str) : VerifyResult :=
  match productionUrl with
  | none => ⟨false, [vlog .error .noProductionUrl], 0⟩
  | some _ =>
    let pre := [vlog .info .verifyingApp]
    match env.first with
    | .timeout => ⟨true, pre ++ [vlog .warning .verifyTimeout], 1⟩
    | .exn => ⟨false, pre ++ [vlog .error .verifyException], 1⟩
    | .ok s auth short =>
      let rlog := pre ++ [vlog .info (.responseStatus s)]
      if s = 401 then
        let l2 := rlog ++ [vlog .info .got401]
        if auth then
          let l3 := l2 ++ [vlog .warning .authPageDetected,
            vlog .info .stillProcessingHint, vlog .info .waitingThirty]
          match env.retry with
          | .timeout => ⟨true, l3 ++ [vlog .warning .verifyTimeout], 2⟩
          | .exn => ⟨false, l3 ++ [vlog .error .verifyException], 2⟩
          | .ok s2 _ _ =>
            let l4 := l3 ++ [vlog .info (.retryStatus s2)]
            if 200 ≤ s2 ∧ s2 < 300 then
              ⟨true, l4 ++ [vlog .success (.retrySuccess s2)], 2⟩
            else if s2 = 401 then
              ⟨true, l4 ++ [vlog .warning .still401, vlog .info .needsIndexHint,
                vlog .success .lenient401], 2⟩
            else
              ⟨true, l4 ++ [vlog .info (.retryDifferentStatus s2),
                vlog .success .lenient401], 2⟩
        else
          ⟨true, l2 ++ [vlog .success .lenient401], 1⟩
      else if 200 ≤ s ∧ s < 300 then
        ⟨true, rlog ++ [vlog .success (.verifySuccess s)], 1⟩
      else
        let paired := (List.range commonPaths.length).map fun i =>
          (commonPaths.getD i [], env.probes.getD i HttpOutcome.exn)
        let probed := runProbes paired
        if probed.1 then
          ⟨true, rlog ++ probed.2.1, 1 + probed.2.2⟩
        else
          let flogs := rlog ++ probed.2.1 ++ [vlog .warning (.verifyFailedStatus s)]
            ++ (if short then [vlog .info .responsePreview] else [])
          if 400 ≤ s ∧ s < 500 ∧ s ≠ 404 then
            ⟨true, flogs ++ [vlog .info (.lenient4xx s)], 1 + probed.2.2⟩
          else
            ⟨false, flogs, 1 + probed.2.2⟩

example : (verifyApp ⟨.ok 200 false false, .exn, []⟩ (some (str "u"))).verified
  = true := by decide
example : (verifyApp ⟨.timeout, .exn, []⟩ (some (str "u"))).verified = true := by decide
example :
    (verifyApp ⟨.ok 404 false true, .exn, [.ok 404 false true, .ok 404 false true,
      .ok 404 false true, .ok 404 false true]⟩ (some (str "u"))).verified
    = false := by decide
example :
    (verifyApp ⟨.ok 404 false true, .exn,
      [.timeout, .ok 404 false true, .ok 404 false true, .ok 404 false true]⟩
      (some (str "u"))).verified = false := by decide
example : (verifyApp ⟨.ok 403 false true, .exn, []⟩ (some (str "u"))).verified
  = true := by decide

/-! ## Submitter (deployment_service.py, deploy_to_vercel lines 14-186)

The stage calls (`detect_framework`, `_prepare_files_for_vercel`, the HTTP
POST) are effects whose outcomes are supplied by a `DeployEnv`. -/

/-- A stage call that either returned a value or raised. -/
inductive Outcome (α : Type) where
  | ok (a : α)
  | raised
deriving DecidableEq, Repr

/-- Outcome of the provider POST (line 139): a response with its status,
whether `response.json()` parses, its `url` field, and the extractable
`error.message` of an error body; or a raised exception (timeouts
included). -/
inductive PostOutcome where
  | ok (status : Nat) (jsonOk : Bool) (urlField : Option Str) (errMsg : Option Str)
  | raised
deriving DecidableEq, Repr

/-- Outcomes of the submitter's three effectful stages. -/
structure DeployEnv where
  detectOutcome : Outcome (FrameworkType × DetectConfig)
  filesOutcome : Outcome (Option (List PackedFile))
  postOutcome : PostOutcome
deriving DecidableEq, Repr

/-- What `deploy_to_vercel` produced: its return value, its log entries,
the number of provider POSTs attempted, and the `name` field of the
deployment descriptor when one was built and submitted. -/
structure DeployResult where
  url : Option Str
  logs : List LogEntry
  postCalls : Nat
  requestName : Option Str
deriving DecidableEq, Repr

/-- Build a submitter log entry. -/
def slog (sev : Severity) (m : SubmitMsg) : LogEntry := ⟨sev, LogMsg.submit m⟩

/-- Python truthiness of `settings.VERCEL_TOKEN` (line 21):
`None` and the empty string are both falsy. -/
def tokenFalsy : Option Str → Bool
  | none => true
  | some s => s.isEmpty

/-- `DeploymentService.deploy_to_vercel`.  The subject is reduced to its
identifier and display name; the body follows lines 14-186. -/
def deployToVercel (token : Option Str) (appId : Nat) (appName : Str)
    (env : DeployEnv) : DeployResult :=
  if tokenFalsy token then
    ⟨none, [slog .error .tokenMissing], 0, none⟩
  else
    let l0 := [slog .info .tokenConfigured, slog .info .detectingFramework]
    match env.detectOutcome with
    | .raised => ⟨none, l0 ++ [slog .error .vercelDeploymentError], 0, none⟩
    | .ok det =>
      let cfg := det.2
      let l1 := l0 ++ [slog .success .detectionComplete,
        slog .info (.detectedLine det.1),
        slog .info (.confidenceLine cfg.confidence),
        slog .info (.frameworkLine (cfg.framework.getD (str "unknown"))),
        slog .info (.deploymentTypeLine (cfg.deploymentType.getD (str "static")))]
      let l2 := if cfg.confidence > 70
        then l1 ++ [slog .success (.updatedFramework det.1)] else l1
      let l3 := l2 ++ [slog .info .preparingFiles]
      match env.filesOutcome with
      | .raised => ⟨none, l3 ++ [slog .error .vercelDeploymentError], 0, none⟩
      | .ok none => ⟨none, l3 ++ [slog .error .noFilesFound], 0, none⟩
      | .ok (some files) =>
        let l4 := l3 ++ [slog .success (.preparedFiles files.length),
          slog .info .creatingDeployConfig]
        let name := vercelProjectName appId appName
        let dt := cfg.deploymentType.getD (str "static")
        let fw := cfg.framework.getD (str "unknown")
        let l5 := l4 ++ [slog .info (.configuringFor fw dt)]
        let l6 :=
          if dt == str "static" then
            if fw == str "vite" then l5 ++ [slog .info .configuringVite]
            else if fw == str "create-react-app" then
              l5 ++ [slog .info .configuringCra]
            else l5 ++ [slog .info .configuringStatic]
          else if dt == str "nextjs" then l5 ++ [slog .info .configuringNextjs]
          else if dt == str "server" then
            if det.1 == FrameworkType.node then
              l5 ++ [slog .info .configuringNodeServer]
            else if det.1 == FrameworkType.python then
              l5 ++ [slog .info .configuringPythonApp]
            else l5
          else l5
        let l7 := l6 ++ [slog .info .startingDeployment,
          slog .info (.uploadingFiles files.length)]
        match env.postOutcome with
        | .raised => ⟨none, l7 ++ [slog .error .vercelDeploymentError], 1, some name⟩
        | .ok st jsonOk urlF errMsg =>
          let l8 := l7 ++ [slog .info (.apiResponse st)]
          if st = 200 ∨ st = 201 then
            if !jsonOk then
              ⟨none, l8 ++ [slog .error .vercelDeploymentError], 1, some name⟩
            else
              match urlF with
              | some u =>
                let full := str "https://" ++ u
                ⟨some full, l8 ++ [slog .success .deploymentSuccessful,
                  slog .success (.liveUrl full), slog .info .deploymentId,
                  slog .info .frameworkSummary, slog .success .nowLive],
                  1, some name⟩
              | none =>
                ⟨none, l8 ++ [slog .error .noUrlReturned,
                  slog .info .responseBody], 1, some name⟩
          else
            let l9 := l8 ++ [slog .error (.vercelDeployFailed st),
              slog .error .errorDetails]
            match errMsg with
            | some m => ⟨none, l9 ++ [slog .error (.specificError m)], 1, some name⟩
            | none => ⟨none, l9, 1, some name⟩

example :
    deployToVercel none 4 (str "My App") ⟨.raised, .raised, .raised⟩
      = ⟨none, [slog .error .tokenMissing], 0, none⟩ := by decide

/-! ## Orchestrator (deployments.py, deploy_background lines 70-146)

The ephemeral status register (`deployment_logger.deployment_status`), the
subject's persisted status/URL and the log stream form the state.  Logger
operations are in-memory dictionary updates and are modelled as total; the
fallible steps each get an outcome in `OrchEnv`.  Database writes only
persist when `db_bg.commit()` succeeds. -/

/-- Values written into the ephemeral status register by this task. -/
inductive RegStatus where
  | deploying
  | completed
  | failed
deriving DecidableEq, Repr

/-- Outcomes of the fallible steps of `deploy_background`:
`app.source_path` truthiness, workflow generation (lines 82-87),
`deploy_to_vercel` (line 93), `SessionLocal()` (line 98), the row query
(line 100, with whether the row exists), `verify_app` (line 112),
`db_bg.commit()` (line 124), and the outer-handler recovery write
(lines 136-146). -/
structure OrchEnv where
  hasSourcePath : Bool
  workflowOk : Bool
  deployOutcome : Outcome (Option Str)
  sessionOk : Bool
  queryOutcome : Outcome Bool
  verifyOutcome : Outcome Bool
  commitOk : Bool
  recoveryOk : Bool
deriving DecidableEq, Repr

/-- The observable state the background task mutates. -/
structure OrchState where
  register : Option RegStatus
  appStatus : AppStatus
  productionUrl : Option Str
  logs : List LogEntry
deriving DecidableEq, Repr

/-- Build an orchestrator log entry. -/
def olog (sev : Severity) (m : OrchMsg) : LogEntry := ⟨sev, LogMsg.orch m⟩

/-- Append log entries to the state. -/
def logsAdd (s : OrchState) (ls : List LogEntry) : OrchState :=
  ⟨s.register, s.appStatus, s.productionUrl, s.logs ++ ls⟩

/-- `deployment_logger.set_status` on the state. -/
def setReg (s : OrchState) (r : RegStatus) : OrchState :=
  ⟨some r, s.appStatus, s.productionUrl, s.logs⟩

/-- The `deploy_background` coroutine, lines 70-146.  The log entries of
the nested `deploy_to_vercel` call are accounted for in `deployToVercel`
and elided here. -/
def deployBackground (env : OrchEnv) (s0 : OrchState) : OrchState :=
  let s1 := setReg s0 .deploying
  let s2 :=
    if env.hasSourcePath then
      let sa := logsAdd s1 [olog .info .preparingVercelDeployment,
        olog .success .vercelConfigPrepared, olog .info .creatingWorkflow]
      if env.workflowOk then logsAdd sa [olog .success .workflowCreated]
      else logsAdd sa [olog .warning .workflowFailed]
    else s1
  let afterDeploy :=
    match env.deployOutcome with
    | .ok u => (u, s2)
    | .raised => (none, logsAdd s2 [olog .error .vercelApiError])
  let deploymentUrl := afterDeploy.1
  let s3 := afterDeploy.2
  if env.sessionOk then
    let inner :=
      match env.queryOutcome with
      | .raised => logsAdd s3 [olog .error .databaseError]
      | .ok false => s3
      | .ok true =>
        match deploymentUrl with
        | some u =>
          let s4 := logsAdd s3 [olog .info .startingVerification]
          let verified :=
            match env.verifyOutcome with
            | .ok true => (AppStatus.published,
                logsAdd s4 [olog .success .verifiedAndPublished])
            | .ok false => (AppStatus.deployed,
                logsAdd s4 [olog .warning .deployedButFailedVerification])
            | .raised => (AppStatus.deployed,
                logsAdd s4 [olog .warning .verificationErrorWarn])
          if env.commitOk then
            ⟨verified.2.register, verified.1, some u, verified.2.logs⟩
          else logsAdd verified.2 [olog .error .databaseError]
        | none =>
          let s4 := logsAdd s3 [olog .error .vercelDeploymentFailedLog]
          if env.commitOk then
            ⟨s4.register, AppStatus.failed, s4.productionUrl, s4.logs⟩
          else logsAdd s4 [olog .error .databaseError]
    setReg inner .completed
  else
    let se := setReg (logsAdd s3 [olog .error .deploymentError]) .failed
    if env.recoveryOk then
      ⟨se.register, AppStatus.failed, se.productionUrl, se.logs⟩
    else se

/-- The webhook-path verification task `run_verification`
(deployments.py lines 324-345): on a found row with a production URL, a
false verification marks the row `failed` and true marks it `published`. -/
def runVerification (ve : VerifyEnv) (found : Bool) (url : Option Str)
    (status : AppStatus) : AppStatus :=
  if found then
    match url with
    | some u =>
      if (verifyApp ve (some u)).verified then AppStatus.published
      else AppStatus.failed
    | none => status
  else status

example :
    (deployBackground ⟨true, true, .ok (some (str "https://a.vercel.app")), true,
      .ok true, .ok false, true, true⟩ ⟨none, .deploying, none, []⟩).appStatus
    = AppStatus.deployed := by decide
example :
    (deployBackground ⟨true, true, .ok (some (str "u")), false,
      .ok true, .ok false, true, true⟩ ⟨none, .deploying, none, []⟩).register
    = some RegStatus.failed := by decide

/-! ## Helper lemmas -/

/-- `stripDashes` only removes characters. -/
theorem stripDashes_sublist (l : Str) : List.Sublist (stripDashes l) l := by
  have h1 : List.Sublist (l.dropWhile fun c => c = '-') l :=
    (List.dropWhile_suffix _).sublist
  have h2 : List.Sublist
      ((l.dropWhile fun c => c = '-').reverse.dropWhile fun c => c = '-')
      (l.dropWhile fun c => c = '-').reverse :=
    (List.dropWhile_suffix _).sublist
  have h3 := h2.reverse
  simp only [List.reverse_reverse] at h3
  exact h3.trans h1

/-- Every character of the sanitized name is alphanumeric or the separator. -/
theorem sanitizeAppName_chars (name : Str) :
    (sanitizeAppName name).all (fun c => c.isAlphanum || c == '-') = true := by
  apply List.all_eq_true.mpr
  intro c hc
  have hsub : List.Sublist (sanitizeAppName name)
      ((lowerStr name).map fun c => if c.isAlphanum then c else '-') :=
    (List.take_sublist _ _).trans (stripDashes_sublist _)
  have hmem := hsub.subset hc
  rcases List.mem_map.mp hmem with ⟨a, _, ha⟩
  subst ha
  by_cases hA : (Char.toLower a |> Char.isAlphanum) = true <;>
    by_cases hB : a.isAlphanum = true <;> simp_all

/-- Did the walk package a top-level `index.html`/`index.htm`? (line 307) -/
def walkHasIndex (codec : Codec) (walk : List WalkFile) : Bool :=
  (packWalk codec walk).1.any fun e =>
    e.file == str "index.html" || e.file == str "index.htm"

/-- Did the walk package a top-level `package.json`? (line 308) -/
def walkHasPackageJson (codec : Codec) (walk : List WalkFile) : Bool :=
  (packWalk codec walk).1.any fun e => e.file == str "package.json"

/-- A walk file the packager skips at the 10 MiB check of line 247: it
survived the dotfile and `vercel.json` checks, its size was readable, and
the size exceeds the ceiling. -/
def skippedAsOversize (f : WalkFile) : Bool :=
  !(startsWithDot f.filename
      && !(f.filename == str ".env.example" || f.filename == str ".gitignore"))
    && !(lowerStr f.filename == str "vercel.json")
    && f.sizeOk && decide (f.size > maxFileSize)

/-- Recognizes the oversize-skip warning of line 248. -/
def isOversizeLog : LogEntry → Bool
  | ⟨_, .pack (.skipLargeFile _ _)⟩ => true
  | _ => false

/-- Recognizes warning-severity log entries. -/
def isWarningLog (e : LogEntry) : Bool := e.level == Severity.warning

/-- An entry the loop emitted comes with the vercel path of its walk file
and never from a file that failed the 10 MiB check. -/
theorem packOne_some (codec : Codec) (f : WalkFile) (e : PackedFile)
    (h : (packOne codec f).1 = some e) :
    e.file = vercelPath f.relPath
    ∧ (f.sizeOk && decide (f.size > maxFileSize)) = false := by
  unfold packOne at h
  split at h
  · simp at h
  split at h
  · simp at h
  split at h
  · simp at h
  split at h
  · simp at h
  rename_i hbig
  have hsize : (f.sizeOk && decide (f.size > maxFileSize)) = false := by
    have hd : decide (f.size > maxFileSize) = false := decide_eq_false hbig
    simp [hd]
  refine ⟨?_, hsize⟩
  split at h
  · simp at h
  split at h
  · split at h
    · split at h
      · split at h
        · simp only [Option.some.injEq] at h
          rw [← h]
        · simp at h
      · simp only [Option.some.injEq] at h
        rw [← h]
    · simp only [Option.some.injEq] at h
      rw [← h]
  · simp only [Option.some.injEq] at h
    rw [← h]

/-- Every entry of the walked package list originates from a walk file. -/
theorem packWalk_origin (codec : Codec) (walk : List WalkFile) :
    ∀ e ∈ (packWalk codec walk).1, ∃ f ∈ walk, (packOne codec f).1 = some e := by
  induction walk with
  | nil => simp [packWalk]
  | cons f rest ih =>
    intro e he
    simp only [packWalk] at he
    rcases List.mem_append.mp he with h | h
    · refine ⟨f, List.mem_cons_self .., ?_⟩
      cases hp : (packOne codec f).1 with
      | none => rw [hp] at h; simp at h
      | some e2 => rw [hp] at h; simp at h; rw [h]
    · rcases ih e h with ⟨g, hg, hgp⟩
      exact ⟨g, List.mem_cons_of_mem _ hg, hgp⟩

/-- The packager's result list is never `none`: it is the walked entries,
then the synthesized `index.html` when none was packaged, then the
synthesized `package.json` for React subjects when none was packaged. -/
theorem prepareFiles_files_eq (codec : Codec) (appId : Nat)
    (fw : FrameworkType) (walk : List WalkFile) :
    (prepareFilesForVercel codec appId fw walk).1
      = some (((packWalk codec walk).1
        ++ (if walkHasIndex codec walk then []
            else [⟨str "index.html", defaultIndexHtml, false⟩]))
        ++ (if walkHasPackageJson codec walk || !(fw == FrameworkType.react)
            then []
            else [⟨str "package.json", defaultPackageJsonContent appId, false⟩])) := by
  unfold prepareFilesForVercel walkHasIndex walkHasPackageJson
  cases hI : (packWalk codec walk).1.any fun e =>
      e.file == str "index.html" || e.file == str "index.htm" <;>
    cases hP : (packWalk codec walk).1.any fun e => e.file == str "package.json" <;>
    cases hF : fw == FrameworkType.react <;>
    simp only [hI, hP, hF, Bool.not_true, Bool.not_false, Bool.false_and,
      Bool.true_and, Bool.and_false, Bool.and_true, Bool.false_or,
      Bool.true_or, Bool.or_false, Bool.or_true, ite_true, ite_false]
  all_goals
    first
    | (simp_all [List.append_assoc]; done)
    | (rcases List.any_eq_true.mp hI with ⟨e, he, -⟩
       have h0 : (packWalk codec walk).1.isEmpty = false :=
         List.isEmpty_eq_false.mpr (List.ne_nil_of_mem he)
       simp_all [List.append_assoc])

/-- Filtering a mapped list whose images never satisfy the predicate
yields the empty list. -/
theorem filter_of_map_nil {α β : Type} (p : β → Bool) (g : α → β)
    (l : List α) (h : ∀ a, p (g a) = false) : (l.map g).filter p = [] := by
  induction l with
  | nil => rfl
  | cons a t ih => simp [List.filter_cons, h, ih]

/-- The packager's log stream filtered by a predicate that rejects the
scan header and every synthesis/summary entry reduces to the filtered
walk logs. -/
theorem prepareFiles_logs_filter (codec : Codec) (appId : Nat)
    (fw : FrameworkType) (walk : List WalkFile) (p : LogEntry → Bool)
    (h1 : p (plog .info .scanningDirectory) = false)
    (h2 : p (plog .info .creatingIndexHtml) = false)
    (h3 : p (plog .success .addedIndexHtml) = false)
    (h4 : p (plog .info .creatingPackageJson) = false)
    (h5 : p (plog .success .addedPackageJson) = false)
    (h6 : ∀ n, p (plog .success (.preparedCount n)) = false)
    (h7 : p (plog .info .fileListHeader) = false)
    (h8 : ∀ q, p (plog .info (.fileItem q)) = false)
    (h9 : ∀ n, p (plog .info (.moreFiles n)) = false) :
    (prepareFilesForVercel codec appId fw walk).2.filter p
      = (packWalk codec walk).2.filter p := by
  unfold prepareFilesForVercel
  cases hI : (packWalk codec walk).1.any fun e =>
      e.file == str "index.html" || e.file == str "index.htm" <;>
    cases hP : (packWalk codec walk).1.any fun e => e.file == str "package.json" <;>
    cases hF : fw == FrameworkType.react <;>
    simp only [hI, hP, hF, Bool.not_true, Bool.not_false, Bool.false_and,
      Bool.true_and, ite_true, ite_false] <;>
    simp [List.filter_append, List.filter_cons, h1, h2, h3, h4, h5, h6, h7,
      h9, filter_of_map_nil p _ _ h8, apply_ite (List.filter p),
      -List.map_take]
  all_goals (intro a ha; exact h8 _)

/-- If a predicate holds on every walk log and on every synthesis/summary
entry, it holds on the whole packager log stream. -/
theorem prepareFiles_logs_all (codec : Codec) (appId : Nat)
    (fw : FrameworkType) (walk : List WalkFile) (p : LogEntry → Bool)
    (h1 : p (plog .info .scanningDirectory) = true)
    (h2 : p (plog .info .creatingIndexHtml) = true)
    (h3 : p (plog .success .addedIndexHtml) = true)
    (h4 : p (plog .info .creatingPackageJson) = true)
    (h5 : p (plog .success .addedPackageJson) = true)
    (h6 : ∀ n, p (plog .success (.preparedCount n)) = true)
    (h7 : p (plog .info .fileListHeader) = true)
    (h8 : ∀ q, p (plog .info (.fileItem q)) = true)
    (h9 : ∀ n, p (plog .info (.moreFiles n)) = true)
    (hw : (packWalk codec walk).2.all p = true) :
    (prepareFilesForVercel codec appId fw walk).2.all p = true := by
  unfold prepareFilesForVercel
  cases hI : (packWalk codec walk).1.any fun e =>
      e.file == str "index.html" || e.file == str "index.htm" <;>
    cases hP : (packWalk codec walk).1.any fun e => e.file == str "package.json" <;>
    cases hF : fw == FrameworkType.react <;>
    simp only [hI, hP, hF, Bool.not_true, Bool.not_false, Bool.false_and,
      Bool.true_and, ite_true, ite_false] <;>
    simp [List.all_append, List.all_eq_true, hw, h1, h2, h3, h4, h5, h6,
      h7, h9, apply_ite (List.all · p), -List.map_take]
  all_goals (intro x hx; exact h8 _)

/-- Each loop iteration emits exactly one oversize warning when the file is
skipped at the 10 MiB check, and none otherwise. -/
theorem packOne_oversize_filter (codec : Codec) (f : WalkFile) :
    ((packOne codec f).2.filter isOversizeLog).length
      = if skippedAsOversize f then 1 else 0 := by
  unfold packOne skippedAsOversize
  repeat' split
  all_goals simp_all [isOversizeLog, isWarningLog, plog, List.filter_cons]
  all_goals (rename_i hx2; exact absurd hx2.2 (by omega))

/-- For a file that is not a provider configuration file and whose read
succeeds, the loop iteration emits exactly one warning when the file is
skipped as oversized, and none otherwise. -/
theorem packOne_warning_filter (codec : Codec) (f : WalkFile)
    (hv : (lowerStr f.filename == str "vercel.json") = false)
    (hc : f.content.isSome = true) :
    ((packOne codec f).2.filter isWarningLog).length
      = if skippedAsOversize f then 1 else 0 := by
  unfold packOne skippedAsOversize
  repeat' split
  all_goals simp_all [isWarningLog, plog, List.filter_cons]
  all_goals (rename_i hx2; exact absurd hx2.2 (by omega))

/-- Every oversize-skip log entry the loop emits has warning severity. -/
theorem packOne_oversize_warning (codec : Codec) (f : WalkFile) :
    ((packOne codec f).2.all fun e => !isOversizeLog e || isWarningLog e)
      = true := by
  unfold packOne
  repeat' split
  all_goals simp_all [isOversizeLog, isWarningLog, plog]

/-- Lift a per-file log count through the walk. -/
theorem packWalk_filter_length (codec : Codec) (p : LogEntry → Bool)
    (q : WalkFile → Bool) :
    ∀ walk : List WalkFile,
      (∀ f ∈ walk,
        ((packOne codec f).2.filter p).length = if q f then 1 else 0) →
      ((packWalk codec walk).2.filter p).length = (walk.filter q).length := by
  intro walk
  induction walk with
  | nil => intro _; rfl
  | cons f rest ih =>
    intro hall
    have hf := hall f (List.mem_cons_self ..)
    have hr := ih fun g hg => hall g (List.mem_cons_of_mem _ hg)
    simp only [packWalk, List.filter_append, List.length_append, hf, hr,
      List.filter_cons]
    cases hq : q f <;> simp [hq] <;> omega

/-- Lift a per-file log predicate through the walk. -/
theorem packWalk_all (codec : Codec) (p : LogEntry → Bool)
    (hper : ∀ f, ((packOne codec f).2.all p) = true) :
    ∀ walk : List WalkFile, ((packWalk codec walk).2.all p) = true := by
  intro walk
  induction walk with
  | nil => rfl
  | cons f rest ih => simp [packWalk, List.all_append, hper f, ih]

/-- The sanitizer as the amended claim words it: lowercase the name and
replace each non-alphanumeric character individually with `-` (runs are not
collapsed), trim separators from both ends, cap at 50 characters. -/
def sanitizeSpecReplaceEach (name : Str) : Str :=
  (stripDashes (name.map fun c =>
    if (Char.toLower c).isAlphanum then Char.toLower c else '-')).take 50

/-- C4 counterexample: on the display name `"My  App"` the code produces
`"my--app"` (one separator per blank), while the claimed run-collapsing
sanitizer would produce `"my-app"`; the two disagree. -/
theorem c4_counterexample :
    sanitizeAppName (str "My  App") = str "my--app"
    ∧ sanitizeSpecCollapsed (str "My  App") = str "my-app"
    ∧ sanitizeAppName (str "My  App") ≠ sanitizeSpecCollapsed (str "My  App") :=
  ⟨by decide, by decide, by decide⟩

/-- C4 (amended): the Submitter lowercases the display name, replaces each
non-alphanumeric character individually with a separator (runs are not
collapsed), trims separators, caps the result at 50 characters, and builds
`app-\x7bid\x7d-\x7bsanitized\x7d`, substituting the generic `saas-app`
when sanitization yields the empty string. -/
theorem c4_project_name_sanitization (appId : Nat) (name : Str) :
    sanitizeAppName name = sanitizeSpecReplaceEach name
    ∧ (sanitizeAppName name).length ≤ 50
    ∧ (sanitizeAppName name).all (fun c => c.isAlphanum || c == '-') = true
    ∧ vercelProjectName appId name
      = str "app-" ++ (toString appId).data ++ str "-"
        ++ (if sanitizeAppName name = [] then str "saas-app"
            else sanitizeAppName name) := by
  refine ⟨?_, ?_, sanitizeAppName_chars name, rfl⟩
  · simp only [sanitizeAppName, sanitizeSpecReplaceEach, lowerStr, List.map_map]
    rfl
  · simp only [sanitizeAppName]
    exact (List.length_take_le _ _)

/-- C7: the classifier maps a `next` dependency to the Node category with
confidence 95 and deployment style `nextjs`; `react` plus `react-scripts`
to confidence 90, style `static`, output directory `build`; and an empty
directory to the default React category with confidence 30. -/
theorem c7_classifier_concrete_results :
    detectFramework ⟨[⟨str "package.json",
        some ⟨[(str "next", str "13.0")], [], []⟩, none⟩], none⟩
      = (FrameworkType.node, ⟨str "nextjs_detected", 95, some (str "nextjs"),
          some (str "13.0"), some (str "nextjs"), none, none, none, none⟩)
    ∧ detectFramework ⟨[⟨str "package.json",
        some ⟨[(str "react", str "18.0"), (str "react-scripts", str "5.0")],
          [], []⟩, none⟩], none⟩
      = (FrameworkType.react, ⟨str "create_react_app", 90,
          some (str "create-react-app"), none, some (str "static"),
          some (str "npm run build"), some (str "build"), none, none⟩)
    ∧ detectFramework ⟨[], none⟩
      = (FrameworkType.react, cfgBare (str "default_fallback") 30) :=
  ⟨by decide, by decide, by decide⟩

/-- C8: with no provider credential the submitter returns no URL, logs the
configuration error as its only log entry, attempts zero provider POSTs
and builds no deployment descriptor, for every environment. -/
theorem c8_missing_token_no_network (appId : Nat) (appName : Str)
    (env : DeployEnv) :
    deployToVercel none appId appName env
      = ⟨none, [slog .error .tokenMissing], 0, none⟩ := rfl

/-- C9: whenever the walk finds a `package.json`, `detect_framework`
returns whatever `_analyze_package_json` returns — it never falls through
to the Python or HTML stages — and when reading/parsing that manifest
raised, the result is the React category with confidence 50 and deployment
style `static`. -/
theorem c9_manifest_error_fallback (tree : DirTree) (e : FsEntry)
    (hfind : tree.files.find? (fun x => x.name == str "package.json") = some e) :
    detectFramework tree = analyzePackageJson e.manifest
    ∧ (e.manifest = none →
        detectFramework tree
          = (FrameworkType.react, ⟨str "package_json_fallback", 50, none, none,
              some (str "static"), none, none, none, none⟩)) := by
  have h1 : detectFramework tree = analyzePackageJson e.manifest := by
    unfold detectFramework
    rw [hfind]
  refine ⟨h1, fun hnone => ?_⟩
  rw [h1, hnone]
  rfl

/-- C9 witness: a tree whose `package.json` fails to parse and which also
contains a Python file and an HTML file still classifies through the
manifest fallback. -/
theorem c9_manifest_error_fallback_witness :
    detectFramework ⟨[⟨str "package.json", none, none⟩,
        ⟨str "app.py", none, some (str "import flask")⟩,
        ⟨str "index.html", none, none⟩], none⟩
      = (FrameworkType.react, ⟨str "package_json_fallback", 50, none, none,
          some (str "static"), none, none, none, none⟩) :=
  (c9_manifest_error_fallback _ ⟨str "package.json", none, none⟩ (by decide)).2 rfl

/-- C10: with the live URL unset the verifier returns `False` with a single
error log entry and makes no HTTP request, for every environment. -/
theorem c10_no_url_no_request (env : VerifyEnv) :
    verifyApp env none = ⟨false, [vlog .error .noProductionUrl], 0⟩ := rfl

/-- C5: a packaging run over a walk with no top-level `index.html`/`index.htm`
always outputs the synthesized landing page under `index.html`; a run whose
walk already packaged an `index.html` gets no synthesized duplicate — its
output restricted to that path is exactly what the walk packaged. -/
theorem c5_index_synthesis (codec : Codec) (appId : Nat) (fw : FrameworkType)
    (walk : List WalkFile) :
    ((walk.all fun f => !(vercelPath f.relPath == str "index.html")
        && !(vercelPath f.relPath == str "index.htm")) = true →
      (((prepareFilesForVercel codec appId fw walk).1.getD []).any fun e =>
        e.file == str "index.html" && e.data == defaultIndexHtml) = true)
    ∧ (((packWalk codec walk).1.any fun e => e.file == str "index.html") = true →
      ((prepareFilesForVercel codec appId fw walk).1.getD []).filter
          (fun e => e.file == str "index.html")
        = (packWalk codec walk).1.filter fun e => e.file == str "index.html") := by
  constructor
  · intro hno
    have hIdx : walkHasIndex codec walk = false := by
      cases hAny : walkHasIndex codec walk
      · rfl
      · exfalso
        rcases List.any_eq_true.mp hAny with ⟨e, he, hpred⟩
        rcases packWalk_origin codec walk e he with ⟨f, hf, hpf⟩
        have hfile := (packOne_some codec f e hpf).1
        have hcond := List.all_eq_true.mp hno f hf
        rw [hfile] at hpred
        simp at hpred hcond
        rcases hpred with h | h <;> simp [h] at hcond
    rw [prepareFiles_files_eq, hIdx]
    simp
  · intro hidx
    have hIdx : walkHasIndex codec walk = true := by
      rcases List.any_eq_true.mp hidx with ⟨e, he, hpred⟩
      exact List.any_eq_true.mpr ⟨e, he, by simp_all⟩
    rw [prepareFiles_files_eq, hIdx]
    cases hP : walkHasPackageJson codec walk <;>
      cases hF2 : fw == FrameworkType.react <;>
      simp [List.filter_append] <;> decide

/-- C5 witness: an empty walk gets the synthesized `index.html`; a walk
that packages its own top-level `index.html` keeps exactly that entry. -/
theorem c5_index_synthesis_witness :
    ((((prepareFilesForVercel testCodec 11 FrameworkType.node []).1.getD []).any
        fun e => e.file == str "index.html" && e.data == defaultIndexHtml) = true)
    ∧ (((prepareFilesForVercel testCodec 12 FrameworkType.node
          [⟨str "index.html", str "index.html", true, 5, some [60]⟩]).1.getD
          []).filter (fun e => e.file == str "index.html")
        = (packWalk testCodec
            [⟨str "index.html", str "index.html", true, 5, some [60]⟩]).1.filter
          fun e => e.file == str "index.html") :=
  ⟨(c5_index_synthesis testCodec 11 FrameworkType.node []).1 (by decide),
   (c5_index_synthesis testCodec 12 FrameworkType.node
      [⟨str "index.html", str "index.html", true, 5, some [60]⟩]).2 (by decide)⟩

/-- C6: a file that fails the 10 MiB check never contributes an output
entry — every output entry either originates from a walk file that passed
the size check or is one of the two synthesized files — the packager logs
exactly one oversize warning (warning severity) per file skipped as
oversized, and on runs with no provider configuration file and no
unreadable file these are the only warnings, so the total warning count
equals the number of skipped oversized files. -/
theorem c6_oversize_skipping (codec : Codec) (appId : Nat) (fw : FrameworkType)
    (walk : List WalkFile) :
    (((prepareFilesForVercel codec appId fw walk).1.getD []).all fun e =>
        (walk.any fun f => e.file == vercelPath f.relPath
          && !(f.sizeOk && decide (f.size > maxFileSize)))
        || e.data == defaultIndexHtml
        || e.data == defaultPackageJsonContent appId) = true
    ∧ ((prepareFilesForVercel codec appId fw walk).2.filter
        isOversizeLog).length = (walk.filter skippedAsOversize).length
    ∧ ((prepareFilesForVercel codec appId fw walk).2.all fun e =>
        !isOversizeLog e || isWarningLog e) = true
    ∧ ((walk.all fun f => !(lowerStr f.filename == str "vercel.json")
          && f.content.isSome) = true →
        ((prepareFilesForVercel codec appId fw walk).2.filter
          isWarningLog).length = (walk.filter skippedAsOversize).length) := by
  refine ⟨?_, ?_, ?_, ?_⟩
  · rw [prepareFiles_files_eq]
    apply List.all_eq_true.mpr
    intro e he
    simp only [Option.getD_some] at he
    rcases List.mem_append.mp he with he1 | hpkg
    · rcases List.mem_append.mp he1 with ha | hb
      · rcases packWalk_origin codec walk e ha with ⟨f, hf, hpf⟩
        rcases packOne_some codec f e hpf with ⟨hfile, hsz⟩
        have hany : (walk.any fun f => e.file == vercelPath f.relPath
            && !(f.sizeOk && decide (f.size > maxFileSize))) = true :=
          List.any_eq_true.mpr ⟨f, hf, by simp [hfile, hsz]⟩
        simp only [hany, Bool.true_or]
      · cases hI : walkHasIndex codec walk <;> rw [hI] at hb <;> simp at hb
        rw [hb]
        simp
    · cases hS : (walkHasPackageJson codec walk
          || !(fw == FrameworkType.react)) <;> rw [hS] at hpkg <;> simp at hpkg
      rw [hpkg]
      simp
  · rw [prepareFiles_logs_filter codec appId fw walk isOversizeLog rfl rfl rfl
      rfl rfl (fun _ => rfl) rfl (fun _ => rfl) (fun _ => rfl)]
    exact packWalk_filter_length codec isOversizeLog skippedAsOversize walk
      fun f _ => packOne_oversize_filter codec f
  · exact prepareFiles_logs_all codec appId fw walk _ rfl rfl rfl rfl rfl
      (fun _ => rfl) rfl (fun _ => rfl) (fun _ => rfl)
      (packWalk_all codec _ (packOne_oversize_warning codec) walk)
  · intro hcond
    rw [prepareFiles_logs_filter codec appId fw walk isWarningLog rfl rfl rfl
      rfl rfl (fun _ => rfl) rfl (fun _ => rfl) (fun _ => rfl)]
    apply packWalk_filter_length codec isWarningLog skippedAsOversize walk
    intro f hf
    have hcf := List.all_eq_true.mp hcond f hf
    simp only [Bool.and_eq_true, Bool.not_eq_true'] at hcf
    exact packOne_warning_filter codec f hcf.1 hcf.2

/-- Does an HTTP outcome carry a 2xx response? -/
def is2xxOutcome : HttpOutcome → Bool
  | .ok s _ _ => decide (200 ≤ s ∧ s < 300)
  | _ => false

/-- The fallback loop verifies nothing when no probe outcome is a 2xx
response — timeouts and exceptions among the probes included. -/
theorem runProbes_none (ps : List (Str × HttpOutcome))
    (h : (ps.all fun po => !is2xxOutcome po.2) = true) :
    (runProbes ps).1 = false := by
  induction ps with
  | nil => rfl
  | cons po rest ih =>
    simp only [List.all_cons, Bool.and_eq_true] at h
    rcases po with ⟨p, o⟩
    cases o with
    | ok s a b =>
      have hn : ¬(200 ≤ s ∧ s < 300) := by
        have h1 := h.1
        simp only [is2xxOutcome, Bool.not_eq_true', decide_eq_false_iff_not] at h1
        exact h1
      simp only [runProbes, if_neg hn]
      exact ih h.2
    | timeout => simpa only [runProbes] using ih h.2
    | exn => simpa only [runProbes] using ih h.2

/-- The environment of the C3 counterexample: the initial GET answers 404,
the first fallback probe times out, the remaining probes answer 404. -/
def c3BadEnv : VerifyEnv :=
  ⟨HttpOutcome.ok 404 false true, HttpOutcome.exn,
    [HttpOutcome.timeout, HttpOutcome.ok 404 false true,
     HttpOutcome.ok 404 false true, HttpOutcome.ok 404 false true]⟩

/-- C3 counterexample: a verification run in which an HTTP request timeout
occurs (at a fallback-path probe) and the verifier nevertheless returns
`False` — the probe-loop handler swallows the timeout and the 404 outcome
decides the result. -/
theorem c3_counterexample :
    c3BadEnv.probes.contains HttpOutcome.timeout = true
    ∧ (verifyApp c3BadEnv (some (str "https://x.vercel.app"))).verified
      = false :=
  ⟨by decide, by decide⟩

/-- C3 (amended): a timeout of the initial GET, or of the 401 retry,
always yields verified=true; a timeout during a fallback-path probe is
caught inside the loop and does not by itself verify — when no probe
answers 2xx the outcome is decided by the lenient-4xx rule on the initial
status. -/
theorem c3_timeout_policy (env : VerifyEnv) (url : Str) (s : Nat)
    (auth short : Bool) :
    (env.first = HttpOutcome.timeout →
      (verifyApp env (some url)).verified = true)
    ∧ (env.first = HttpOutcome.ok 401 true short →
        env.retry = HttpOutcome.timeout →
        (verifyApp env (some url)).verified = true)
    ∧ (env.first = HttpOutcome.ok s auth short → ¬(200 ≤ s ∧ s < 300) →
        s ≠ 401 → (env.probes.all fun o => !is2xxOutcome o) = true →
        (verifyApp env (some url)).verified
          = decide (400 ≤ s ∧ s < 500 ∧ s ≠ 404)) := by
  refine ⟨?_, ?_, ?_⟩
  · intro h1
    simp [verifyApp, h1]
  · intro h1 h2
    simp [verifyApp, h1, h2]
  · intro h1 hn2 hn401 hpr
    have hps : (((List.range commonPaths.length).map fun i =>
        (commonPaths.getD i [], env.probes.getD i HttpOutcome.exn)).all
        fun po => !is2xxOutcome po.2) = true := by
      apply List.all_eq_true.mpr
      intro po hpo
      rcases List.mem_map.mp hpo with ⟨i, -, hi⟩
      rw [← hi]
      by_cases hlen : i < env.probes.length
      · have hmem : env.probes.getD i HttpOutcome.exn ∈ env.probes := by
          rw [List.getD_eq_getElem _ _ hlen]
          exact List.getElem_mem hlen
        exact List.all_eq_true.mp hpr _ hmem
      · rw [List.getD_eq_default _ _ (Nat.le_of_not_lt hlen)]
        rfl
    have hprobe := runProbes_none _ hps
    simp only [verifyApp, h1, if_neg hn401, if_neg hn2, hprobe,
      Bool.false_eq_true, if_false]
    by_cases hcond : 400 ≤ s ∧ s < 500 ∧ s ≠ 404 <;>
      simp [hcond]

/-- C3 witness: a timeout of the initial GET verifies; a timeout of the 401
retry verifies; with a 404 initial response and only non-2xx probes the
result is not verified. -/
theorem c3_timeout_policy_witness :
    (verifyApp ⟨HttpOutcome.timeout, HttpOutcome.exn, []⟩
      (some (str "u"))).verified = true
    ∧ (verifyApp ⟨HttpOutcome.ok 401 true false, HttpOutcome.timeout, []⟩
        (some (str "u"))).verified = true
    ∧ (verifyApp c3BadEnv (some (str "u"))).verified
        = decide (400 ≤ 404 ∧ 404 < 500 ∧ 404 ≠ 404) :=
  ⟨(c3_timeout_policy ⟨HttpOutcome.timeout, HttpOutcome.exn, []⟩
      (str "u") 0 false false).1 rfl,
   (c3_timeout_policy ⟨HttpOutcome.ok 401 true false, HttpOutcome.timeout, []⟩
      (str "u") 0 false false).2.1 rfl rfl,
   (c3_timeout_policy c3BadEnv (str "u") 404 false true).2.2 rfl
      (by decide) (by decide) (by decide)⟩

/-- The orchestrator environment of the C1 counterexample: submitter
returned a live URL, the verifier returned false, all database steps
succeed. -/
def c1BadEnv : OrchEnv :=
  ⟨true, true, Outcome.ok (some (str "https://a.vercel.app")), true,
    Outcome.ok true, Outcome.ok false, true, true⟩

/-- C1 counterexample: a deployment attempt in which the Submitter returned
a live URL and the Verifier returned false, yet the subject's data-layer
status ends as `deployed` — the orchestrator does not mark it `failed`. -/
theorem c1_counterexample :
    (deployBackground c1BadEnv ⟨none, .deploying, none, []⟩).appStatus
      ≠ AppStatus.failed
    ∧ (deployBackground c1BadEnv ⟨none, .deploying, none, []⟩).appStatus
      = AppStatus.deployed :=
  ⟨by decide, by decide⟩

/-- C1 (amended): when the Submitter returned a live URL and the Verifier
then returns false, the orchestrator leaves the subject's data-layer status
as `deployed` (it does not mark it `failed`), logs the verification failure
as a warning and never at error severity, and persists the live URL. -/
theorem c1_verify_false_leaves_deployed (env : OrchEnv) (s0 : OrchState)
    (u : Str) (hs : env.sessionOk = true)
    (hq : env.queryOutcome = Outcome.ok true)
    (hd : env.deployOutcome = Outcome.ok (some u))
    (hv : env.verifyOutcome = Outcome.ok false)
    (hc : env.commitOk = true)
    (hlogs : (s0.logs.all fun e =>
        !(e.msg == LogMsg.orch OrchMsg.deployedButFailedVerification)
          || (e.level == Severity.warning)) = true) :
    (deployBackground env s0).appStatus = AppStatus.deployed
    ∧ (deployBackground env s0).productionUrl = some u
    ∧ (deployBackground env s0).register = some RegStatus.completed
    ∧ olog .warning .deployedButFailedVerification
        ∈ (deployBackground env s0).logs
    ∧ ((deployBackground env s0).logs.all fun e =>
        !(e.msg == LogMsg.orch OrchMsg.deployedButFailedVerification)
          || (e.level == Severity.warning)) = true := by
  unfold deployBackground
  rw [hd, hq, hv]
  cases hsp : env.hasSourcePath <;> cases hw : env.workflowOk <;>
    simp [hs, hc, setReg, logsAdd, olog, List.all_append, List.mem_append,
      hlogs]

/-- C1 witness: the concrete failed-verification run keeps status
`deployed`, keeps the URL, completes the register and warns. -/
theorem c1_verify_false_leaves_deployed_witness :
    (deployBackground c1BadEnv ⟨none, .deploying, none, []⟩).appStatus
      = AppStatus.deployed
    ∧ (deployBackground c1BadEnv ⟨none, .deploying, none, []⟩).productionUrl
      = some (str "https://a.vercel.app")
    ∧ (deployBackground c1BadEnv ⟨none, .deploying, none, []⟩).register
      = some RegStatus.completed
    ∧ olog .warning .deployedButFailedVerification
        ∈ (deployBackground c1BadEnv ⟨none, .deploying, none, []⟩).logs
    ∧ ((deployBackground c1BadEnv ⟨none, .deploying, none, []⟩).logs.all
        fun e =>
        !(e.msg == LogMsg.orch OrchMsg.deployedButFailedVerification)
          || (e.level == Severity.warning)) = true :=
  c1_verify_false_leaves_deployed c1BadEnv ⟨none, .deploying, none, []⟩
    (str "https://a.vercel.app") rfl rfl rfl rfl rfl (by decide)

/-- The orchestrator environment of the C2 counterexample: everything
succeeds except that opening the background database session raises. -/
def c2BadEnv : OrchEnv :=
  ⟨true, true, Outcome.ok (some (str "https://a.vercel.app")), false,
    Outcome.ok true, Outcome.ok true, true, true⟩

/-- C2 counterexample: a pipeline run whose background database session
step raises finishes with the ephemeral register set to `failed`, not
`completed` — the outer exception handler overrides the claim. -/
theorem c2_counterexample :
    (deployBackground c2BadEnv ⟨none, .deploying, none, []⟩).register
      ≠ some RegStatus.completed
    ∧ (deployBackground c2BadEnv ⟨none, .deploying, none, []⟩).register
      = some RegStatus.failed :=
  ⟨by decide, by decide⟩

/-- C2 (amended): whenever the background database session opens
successfully, the pipeline's `finally` step sets the ephemeral register to
`completed` regardless of every other outcome — deployment failure,
missing row, verification failure or exception, and commit failure
included; only an exception escaping outside that inner block (the session
step itself raising) makes the outer handler write `failed` instead. -/
theorem c2_register_completed (env : OrchEnv) (s0 : OrchState)
    (h : env.sessionOk = true) :
    (deployBackground env s0).register = some RegStatus.completed := by
  unfold deployBackground
  simp [h, setReg]

/-- C2 witness: a run whose deployment failed and whose commit raised still
completes the register. -/
theorem c2_register_completed_witness :
    (deployBackground ⟨true, false, Outcome.raised, true, Outcome.ok true,
        Outcome.raised, false, true⟩ ⟨none, .deploying, none, []⟩).register
      = some RegStatus.completed :=
  c2_register_completed ⟨true, false, Outcome.raised, true, Outcome.ok true,
    Outcome.raised, false, true⟩ ⟨none, .deploying, none, []⟩ rfl

/-- C6 witness: a run with one oversized file and one ordinary file logs
exactly one warning, matching the one skipped oversized file. -/
theorem c6_oversize_skipping_witness :
    ((prepareFilesForVercel testCodec 9 FrameworkType.node
        [⟨str "big.bin", str "big.bin", true, 10485761, some [0]⟩,
         ⟨str "a.txt", str "a.txt", true, 2, some [104]⟩]).2.filter
      isWarningLog).length
      = ([⟨str "big.bin", str "big.bin", true, 10485761, some [0]⟩,
          (⟨str "a.txt", str "a.txt", true, 2, some [104]⟩ : WalkFile)].filter
          skippedAsOversize).length :=
  (c6_oversize_skipping testCodec 9 FrameworkType.node
    [⟨str "big.bin", str "big.bin", true, 10485761, some [0]⟩,
     ⟨str "a.txt", str "a.txt", true, 2, some [104]⟩]).2.2.2 (by decide)

end MarketPlace
